import Mathlib

/-!
Verification of the mlb-stats-scraper repository (src/fetch_mlb_data.py and
src/fetch_mlb_games.py) against its natural-language specification.

The scripts poll a JSON HTTP API, reshape nested JSON documents into flat
records, and write them to a hosted store through a generic upsert helper.
We embed the JSON data model, the Python access and coercion semantics that
the scripts rely on (dict.get with defaults, subscript access, truthiness,
int() and float() coercion, str.replace), and each fetch function's
normalization logic, then prove or refute the specified properties.
-/

namespace MLB

/-- JSON values as parsed by the Python scripts (requests .json()).
Numbers are modelled as rationals; the scripts never depend on binary
floating-point rounding for the properties considered here. -/
inductive JVal where
  | null
  | bool (b : Bool)
  | num (q : ℚ)
  | str (s : String)
  | arr (xs : List JVal)
  | obj (fields : List (String × JVal))

/-- Python exceptions that the scripts can raise or catch. -/
inductive PyErr where
  | keyError (k : String)
  | attributeError (m : String)
  | typeError (m : String)
  | valueError (m : String)
  | indexError
  | other (m : String)
deriving DecidableEq

/-- The except clause in fetch_player_stats catches exactly ValueError and
TypeError (src/fetch_mlb_data.py line 119). -/
def isCaught : PyErr → Bool
  | .typeError _ => true
  | .valueError _ => true
  | _ => false

/-- Boolean success test for the error monad. -/
def isOkE {α : Type} : Except PyErr α → Bool
  | .ok _ => true
  | .error _ => false

/-- Lookup of a key in a JSON object field list (first match wins). -/
def olookup : List (String × JVal) → String → Option JVal
  | [], _ => none
  | (k, v) :: rest, key => if k = key then some v else olookup rest key

/-- Python dict.get(k, default): the default is used only when the key is
absent; calling .get on a non-dict raises AttributeError. -/
def pyGetD (v : JVal) (k : String) (d : JVal) : Except PyErr JVal :=
  match v with
  | .obj fs => .ok ((olookup fs k).getD d)
  | _ => .error (.attributeError "get")

/-- Python dict.get(k) with no default returns None when the key is absent. -/
def pyGet (v : JVal) (k : String) : Except PyErr JVal :=
  pyGetD v k .null

/-- Python subscript d[k]: raises KeyError when the key is absent and
TypeError when the value is not a dict. -/
def pySub (v : JVal) (k : String) : Except PyErr JVal :=
  match v with
  | .obj fs =>
    match olookup fs k with
    | some x => .ok x
    | none => .error (.keyError k)
  | _ => .error (.typeError "subscript")

/-- Iteration over a JSON value: the scripts only ever iterate values that
are JSON arrays; iterating anything else is modelled as a TypeError. -/
def pyIter (v : JVal) : Except PyErr (List JVal) :=
  match v with
  | .arr xs => .ok xs
  | _ => .error (.typeError "not iterable")

/-- Python truthiness of a JSON value. -/
def pyTruthy : JVal → Bool
  | .null => false
  | .bool b => b
  | .num q => if q = 0 then false else true
  | .str "" => false
  | .str _ => true
  | .arr [] => false
  | .arr (_ :: _) => true
  | .obj [] => false
  | .obj (_ :: _) => true

/-- Value of a list of decimal digit characters, most significant first;
none when a non-digit occurs. -/
def digitsVal (cs : List Char) : Option Nat :=
  cs.foldl
    (fun acc c =>
      match acc with
      | some n => if c.isDigit then some (n * 10 + (c.toNat - 48)) else none
      | none => none)
    (some 0)

/-- Split an optional leading sign from a character list; the Bool is true
for a negative sign. -/
def splitSign : List Char → Bool × List Char
  | '-' :: rest => (true, rest)
  | '+' :: rest => (false, rest)
  | cs => (false, cs)

/-- Parse of a decimal literal as accepted by Python float(): optional
sign, integer digits, optional fractional part, at least one digit overall.
Exponent and inf/nan forms never occur in the inputs modelled here. -/
def parseFloatChars (cs : List Char) : Option ℚ :=
  let sc := splitSign cs
  let intPart := sc.2.takeWhile Char.isDigit
  let rest := sc.2.dropWhile Char.isDigit
  match rest with
  | [] =>
    if intPart.isEmpty then none
    else (digitsVal intPart).map (fun n => if sc.1 then -(n : ℚ) else (n : ℚ))
  | '.' :: frac =>
    if frac.all Char.isDigit then
      if intPart.isEmpty && frac.isEmpty then none
      else
        match digitsVal intPart, digitsVal frac with
        | some i, some f =>
          let v : ℚ := (i : ℚ) + (f : ℚ) / (10 : ℚ) ^ frac.length
          some (if sc.1 then -v else v)
        | _, _ => none
    else none
  | _ => none

/-- Parse of an integer literal as accepted by Python int() on strings:
optional sign then digits only (a decimal point is a ValueError). -/
def parseIntChars (cs : List Char) : Option Int :=
  let sc := splitSign cs
  if sc.2.isEmpty then none
  else if sc.2.all Char.isDigit then
    (digitsVal sc.2).map (fun n => if sc.1 then -(n : Int) else (n : Int))
  else none

/-- Truncation toward zero, as Python int() applied to a number. -/
def pyTrunc (q : ℚ) : Int :=
  q.num.tdiv (q.den : Int)

/-- Python int(x) on a JSON value. -/
def pyInt (v : JVal) : Except PyErr Int :=
  match v with
  | .num q => .ok (pyTrunc q)
  | .bool b => .ok (if b then 1 else 0)
  | .str s =>
    match parseIntChars s.data with
    | some n => .ok n
    | none => .error (.valueError "invalid literal for int")
  | _ => .error (.typeError "int argument")

/-- Python float(x) on a JSON value. -/
def pyFloat (v : JVal) : Except PyErr ℚ :=
  match v with
  | .num q => .ok q
  | .bool b => .ok (if b then 1 else 0)
  | .str s =>
    match parseFloatChars s.data with
    | some q => .ok q
    | none => .error (.valueError "could not convert string to float")
  | _ => .error (.typeError "float argument")

/-- Python str(x). Renderings of containers are simplified; the scripts
only apply str to player names, which are JSON strings. -/
def pyStr : JVal → String
  | .str s => s
  | .null => "None"
  | .bool true => "True"
  | .bool false => "False"
  | .num q => toString q
  | .arr _ => "<list>"
  | .obj _ => "<dict>"

/-- Python s.lower(): only defined on strings, AttributeError otherwise.
Lowering is per character, which agrees with Python on the ASCII group
names the scripts compare against. -/
def pyLower (v : JVal) : Except PyErr String :=
  match v with
  | .str s => .ok ⟨s.data.map Char.toLower⟩
  | _ => .error (.attributeError "lower")

/-- Whether the first list is an initial segment of the second. -/
def startsWithL : List Char → List Char → Bool
  | [], _ => true
  | _ :: _, [] => false
  | p :: ps, c :: cs => if p = c then startsWithL ps cs else false

/-- Replacement of every occurrence of a nonempty pattern in a character
list, scanning left to right (Python str.replace). The first argument is
recursion fuel, always supplied as the length of the scanned list, which
suffices because every step consumes at least one character. -/
def listReplace (p0 : Char) (ps new : List Char) : Nat → List Char → List Char
  | _, [] => []
  | 0, l => l
  | fuel + 1, c :: cs =>
    if startsWithL (p0 :: ps) (c :: cs) then
      new ++ listReplace p0 ps new fuel (cs.drop ps.length)
    else
      c :: listReplace p0 ps new fuel cs

/-- Python s.replace(old, new) on a JSON value; the scripts only call it
with the nonempty pattern "-". -/
def pyStrReplace (v : JVal) (old new : String) : Except PyErr JVal :=
  match v with
  | .str s =>
    match old.data with
    | [] => .ok (.str s)
    | p0 :: ps => .ok (.str ⟨listReplace p0 ps new.data s.data.length s.data⟩)
  | _ => .error (.attributeError "replace")

/-- Sequential effectful map, aborting at the first raised error, exactly
as a Python for loop that appends to a list. -/
def mapE {α β : Type} (f : α → Except PyErr β) : List α → Except PyErr (List β)
  | [] => .ok []
  | x :: xs =>
    match f x with
    | .error e => .error e
    | .ok y =>
      match mapE f xs with
      | .error e => .error e
      | .ok ys => .ok (y :: ys)

/-- Sequential effectful fold, aborting at the first raised error. -/
def foldE {α β : Type} (f : β → α → Except PyErr β) : β → List α → Except PyErr β
  | b, [] => .ok b
  | b, x :: xs =>
    match f b x with
    | .error e => .error e
    | .ok b2 => foldE f b2 xs

/-!
## The upsert helper (src/fetch_mlb_data.py lines 13 to 34)

The helper is parametrized by the store write operation (the supabase
client call), which returns the number of rows in the response data or
raises. The Python function body returns no value on every path (a bare
return on the empty branch, falling off the end otherwise), which we
record as an Except result carrying Option Nat: ok none is a plain
Python None return.
-/

/-- Arguments of one call to the underlying store write
(supabase .table(t).upsert(rows, on_conflict=spec).execute()). -/
structure StoreCall (α : Type) where
  table : String
  rows : List α
  conflict_spec : String

/-- Observable outcome of one call of the upsert helper: the log lines it
printed, the store writes it performed, and its Python result (a returned
value or a propagated exception). -/
structure UpsertRun (α : Type) where
  logs : List String
  store_calls : List (StoreCall α)
  result : Except PyErr (Option Nat)

/-- Nonempty branch of the upsert helper: perform the single batched store
write and log success or log and re-raise failure. -/
def upsertGo {α : Type} (store : String → List α → String → Except PyErr Nat)
    (table : String) (rows : List α) (spec log1 : String) : UpsertRun α :=
  match store table rows spec with
  | .ok n =>
    { logs := [log1, "[SUCCESS] " ++ toString n ++ " rows upserted into " ++ table]
      store_calls := [⟨table, rows, spec⟩]
      result := .ok none }
  | .error e =>
    { logs := [log1, "[ERROR] Failed to upsert into " ++ table]
      store_calls := [⟨table, rows, spec⟩]
      result := .error e }

/-- The upsert helper, src/fetch_mlb_data.py lines 13 to 34. An empty rows
list logs and returns immediately with no store call; otherwise the
conflict specification is the single column name, or the comma join of the
column names when more than one is given (an empty column list would hit
conflict_cols[0] and raise IndexError). -/
def upsert {α : Type} (store : String → List α → String → Except PyErr Nat)
    (table : String) (rows : List α) (conflict_cols : List String) : UpsertRun α :=
  match rows with
  | [] =>
    { logs := ["[INFO] No rows to insert for table: " ++ table]
      store_calls := []
      result := .ok none }
  | _ =>
    let log1 := "[INFO] Upserting " ++ toString rows.length ++ " rows into " ++ table
    match conflict_cols with
    | [] => { logs := [log1], store_calls := [], result := .error .indexError }
    | [c] => upsertGo store table rows c log1
    | c1 :: c2 :: cs => upsertGo store table rows (String.intercalate "," (c1 :: c2 :: cs)) log1

/-- Arguments that a pipeline passes to the upsert helper. -/
structure UpsertCall (α : Type) where
  table : String
  rows : List α
  conflict_cols : List String

/-!
## fetch_games (src/fetch_mlb_data.py lines 37 to 55)
-/

/-- Flat game record built by fetch_games; fields hold whatever JSON value
the safe access chain produced, null when anything along the path was
absent. -/
structure GameRec where
  game_id : JVal
  date : JVal
  status : JVal
  home_team : JVal
  away_team : JVal
  home_score : JVal
  away_score : JVal

/-- Record built for one game object, fields in dict-literal order
(src/fetch_mlb_data.py lines 46 to 54). -/
def normGame (game : JVal) : Except PyErr GameRec := do
  let gid ← pyGet game "gamePk"
  let gdate ← pyGet game "gameDate"
  let statusObj ← pyGetD game "status" (.obj [])
  let status ← pyGet statusObj "detailedState"
  let teams1 ← pyGetD game "teams" (.obj [])
  let home1 ← pyGetD teams1 "home" (.obj [])
  let hteam ← pyGetD home1 "team" (.obj [])
  let hname ← pyGet hteam "name"
  let teams2 ← pyGetD game "teams" (.obj [])
  let away1 ← pyGetD teams2 "away" (.obj [])
  let ateam ← pyGetD away1 "team" (.obj [])
  let aname ← pyGet ateam "name"
  let teams3 ← pyGetD game "teams" (.obj [])
  let home2 ← pyGetD teams3 "home" (.obj [])
  let hscore ← pyGet home2 "score"
  let teams4 ← pyGetD game "teams" (.obj [])
  let away2 ← pyGetD teams4 "away" (.obj [])
  let ascore ← pyGet away2 "score"
  pure ⟨gid, gdate, status, hname, aname, hscore, ascore⟩

/-- The nested loop of fetch_games: every game of every date block is
appended, with no filtering of any kind. -/
def normGames (data : JVal) : Except PyErr (List GameRec) := do
  let datesv ← pyGetD data "dates" (.arr [])
  let dates ← pyIter datesv
  let perDate ← mapE
    (fun date => do
      let gamesv ← pyGetD date "games" (.arr [])
      let games ← pyIter gamesv
      mapE normGame games)
    dates
  pure perDate.flatten

/-- The fetch_games pipeline applied to an already fetched JSON document:
it makes exactly one call to the upsert helper, with table games and
conflict key game_id. -/
def fetchGamesRun (data : JVal) : Except PyErr (List (UpsertCall GameRec)) := do
  let games ← normGames data
  pure [⟨"games", games, ["game_id"]⟩]

/-!
## fetch_standings (src/fetch_mlb_data.py lines 58 to 81)
-/

/-- Flat standings record; team_id, team_name, wins and losses come from
direct subscript access and win_pct and games_back from float coercion. -/
structure StandingRec where
  season : JVal
  team_id : JVal
  team_name : JVal
  division : JVal
  wins : JVal
  losses : JVal
  win_pct : ℚ
  games_back : ℚ

/-- The games_back normalization expression
float(team_record.get("gamesBack", "0").replace("-", "0")),
src/fetch_mlb_data.py line 79. -/
def gamesBackOf (team_record : JVal) : Except PyErr ℚ := do
  let raw ← pyGetD team_record "gamesBack" (.str "0")
  let replaced ← pyStrReplace raw "-" "0"
  pyFloat replaced

/-- Record built for one teamRecords entry (src/fetch_mlb_data.py lines
69 to 80). The team variable bound on line 70 with safe access is unused:
the dict literal subscripts team_record directly, so a missing team, id,
name, wins, losses or winningPercentage key raises. -/
def normStandingTeam (season division_name team_record : JVal) :
    Except PyErr StandingRec := do
  let _team ← pyGetD team_record "team" (.obj [])
  let teamA ← pySub team_record "team"
  let tid ← pySub teamA "id"
  let teamB ← pySub team_record "team"
  let tname ← pySub teamB "name"
  let wins ← pySub team_record "wins"
  let losses ← pySub team_record "losses"
  let wpRaw ← pySub team_record "winningPercentage"
  let wp ← pyFloat wpRaw
  let gb ← gamesBackOf team_record
  pure ⟨season, tid, tname, division_name, wins, losses, wp, gb⟩

/-- fetch_standings normalization applied to a fetched document; year is
the current year used as season fallback (Python x or y picks y when x is
falsy). Produces the single upsert call on table standings with composite
key (season, team_id). -/
def normStandings (year : Int) (data : JVal) :
    Except PyErr (UpsertCall StandingRec) := do
  let seasonRaw ← pyGet data "season"
  let season := if pyTruthy seasonRaw then seasonRaw else JVal.num year
  let recsv ← pyGetD data "records" (.arr [])
  let recs ← pyIter recsv
  let perRecord ← mapE
    (fun record => do
      let divObj ← pyGetD record "division" (.obj [])
      let division_name ← pyGet divObj "name"
      let trsv ← pyGetD record "teamRecords" (.arr [])
      let trs ← pyIter trsv
      mapE (normStandingTeam season division_name) trs)
    recs
  pure ⟨"standings", perRecord.flatten, ["season", "team_id"]⟩

/-!
## fetch_player_stats (src/fetch_mlb_data.py lines 84 to 123)
-/

/-- Flat player season record; the int() and float() coercions give the
fields genuine numeric types, with None for the conditional ids and name. -/
structure PlayerRec where
  player_id : Option Int
  season : Int
  team_id : Option Int
  player_name : Option String
  games_played : Int
  avg : ℚ
  ops : ℚ
  hr : Int
  rbi : Int
  era : ℚ
  so : Int

/-- Python pattern int(v) if v else None. -/
def optIntIfTruthy (v : JVal) : Except PyErr (Option Int) :=
  if pyTruthy v then
    match pyInt v with
    | .ok n => .ok (some n)
    | .error e => .error e
  else .ok none

/-- Python pattern int(d.get(k, 0)) if d.get(k) else 0. -/
def intIfTruthy (cond v : JVal) : Except PyErr Int :=
  if pyTruthy cond then pyInt v else .ok 0

/-- Python pattern int(v or 0). -/
def intOr0 (v : JVal) : Except PyErr Int :=
  pyInt (if pyTruthy v then v else .num 0)

/-- Python pattern float(v or 0). -/
def floatOr0 (v : JVal) : Except PyErr ℚ :=
  pyFloat (if pyTruthy v then v else .num 0)

/-- The record construction inside the try block of fetch_player_stats
(src/fetch_mlb_data.py lines 99 to 111), dict-literal order; year stands
for datetime.now().year. -/
def buildPlayerRec (year : Int) (player stat team_info : JVal) :
    Except PyErr PlayerRec := do
  let idv ← pyGet player "id"
  let player_id ← optIntIfTruthy idv
  let tidv ← pyGet team_info "id"
  let team_id ← optIntIfTruthy tidv
  let namev ← pyGet player "fullName"
  let player_name := if pyTruthy namev then some (pyStr namev) else none
  let gpCond ← pyGet stat "gamesPlayed"
  let gpVal ← pyGetD stat "gamesPlayed" (.num 0)
  let games_played ← intIfTruthy gpCond gpVal
  let avgv ← pyGetD stat "avg" (.num 0)
  let avg ← floatOr0 avgv
  let opsv ← pyGetD stat "ops" (.num 0)
  let ops ← floatOr0 opsv
  let hrv ← pyGetD stat "homeRuns" (.num 0)
  let hr ← intOr0 hrv
  let rbiv ← pyGetD stat "rbi" (.num 0)
  let rbi ← intOr0 rbiv
  let erav ← pyGetD stat "era" (.num 0)
  let era ← floatOr0 erav
  let sov ← pyGetD stat "strikeOuts" (.num 0)
  let so ← intOr0 sov
  pure ⟨player_id, year, team_id, player_name, games_played, avg, ops, hr, rbi, era, so⟩

/-- Processing of one split (src/fetch_mlb_data.py lines 91 to 121): the
three safe gets run outside the try block; a ValueError or TypeError from
the record construction is caught and the split skipped; the record is
appended only when both player_id and team_id are not None. -/
def normPlayerSplit (year : Int) (split : JVal) :
    Except PyErr (Option PlayerRec) := do
  let player ← pyGetD split "player" (.obj [])
  let stat ← pyGetD split "stat" (.obj [])
  let team_info ← pyGetD split "team" (.obj [])
  match buildPlayerRec year player stat team_info with
  | .ok rec => if rec.player_id ≠ none ∧ rec.team_id ≠ none then pure (some rec) else pure none
  | .error e => if isCaught e then pure none else .error e

/-- fetch_player_stats normalization: all splits of all stats rows, skipped
entries removed, upserted into player_season_stats keyed by
(player_id, season). -/
def normPlayerStats (year : Int) (data : JVal) :
    Except PyErr (UpsertCall PlayerRec) := do
  let statsv ← pyGetD data "stats" (.arr [])
  let statsRows ← pyIter statsv
  let perRow ← mapE
    (fun row => do
      let splitsv ← pyGetD row "splits" (.arr [])
      let splits ← pyIter splitsv
      mapE (normPlayerSplit year) splits)
    statsRows
  pure ⟨"player_season_stats", perRow.flatten.filterMap id, ["player_id", "season"]⟩

/-!
## fetch_schedule (src/fetch_mlb_data.py lines 126 to 142)
-/

/-- Flat schedule record, all fields from safe access chains. -/
structure ScheduleRec where
  game_id : JVal
  date : JVal
  home_team : JVal
  away_team : JVal

/-- Record built for one scheduled game (src/fetch_mlb_data.py lines 136
to 141). -/
def normScheduleGame (game : JVal) : Except PyErr ScheduleRec := do
  let gid ← pyGet game "gamePk"
  let gdate ← pyGet game "gameDate"
  let teams1 ← pyGetD game "teams" (.obj [])
  let home1 ← pyGetD teams1 "home" (.obj [])
  let hteam ← pyGetD home1 "team" (.obj [])
  let hname ← pyGet hteam "name"
  let teams2 ← pyGetD game "teams" (.obj [])
  let away1 ← pyGetD teams2 "away" (.obj [])
  let ateam ← pyGetD away1 "team" (.obj [])
  let aname ← pyGet ateam "name"
  pure ⟨gid, gdate, hname, aname⟩

/-- The nested loop of fetch_schedule; like fetch_games, every entry is
appended with no filtering. -/
def normSchedule (data : JVal) : Except PyErr (List ScheduleRec) := do
  let datesv ← pyGetD data "dates" (.arr [])
  let dates ← pyIter datesv
  let perDate ← mapE
    (fun date => do
      let gamesv ← pyGetD date "games" (.arr [])
      let games ← pyIter gamesv
      mapE normScheduleGame games)
    dates
  pure perDate.flatten

/-!
## fetch_team_stats (src/fetch_mlb_data.py lines 145 to 221)
-/

/-- Flat team season record: id and name are raw JSON values from safe
access, the stat aggregates start as Python None and are filled in from
the hitting and pitching split groups. -/
structure TeamStatRec where
  season : Int
  team_id : JVal
  team_name : JVal
  games_played : Option Int
  wins : Option Int
  losses : Option Int
  win_percentage : Option ℚ
  runs_scored : Option Int
  runs_allowed : Option Int
  home_runs : Option Int
  batting_avg : Option ℚ
  obp : Option ℚ
  slg : Option ℚ
  era : Option ℚ
  strikeouts : Option Int
  walks : Option Int
  stolen_bases : Option Int
  caught_stealing : Option Int
  updated_at : String

/-- Test used by the team stats filter: row team_id is not None. -/
def JVal.isNull : JVal → Bool
  | .null => true
  | _ => false

/-- The initial row of fetch_team_stats (src/fetch_mlb_data.py lines 165
to 185): team identity from safe gets, every aggregate None, updated_at
the current timestamp (passed in as now). -/
def teamStatsInit (season : Int) (now : String) (team_info : JVal) :
    Except PyErr TeamStatRec := do
  let tid ← pyGet team_info "id"
  let tname ← pyGet team_info "name"
  pure ⟨season, tid, tname, none, none, none, none, none, none, none, none,
        none, none, none, none, none, none, none, now⟩

/-- Merge of one split group into the row (src/fetch_mlb_data.py lines 187
to 208): the lowercased group display name routes the stat object into the
hitting fields or the pitching fields; any other group, fielding included,
leaves the row unchanged. -/
def applySplit (row : TeamStatRec) (split : JVal) : Except PyErr TeamStatRec := do
  let groupObj ← pyGetD split "group" (.obj [])
  let dn ← pyGetD groupObj "displayName" (.str "")
  let group ← pyLower dn
  let stats ← pyGetD split "stat" (.obj [])
  if group = "hitting" then do
    let gp ← pyInt (← pyGetD stats "gamesPlayed" (.num 0))
    let rs ← pyInt (← pyGetD stats "runs" (.num 0))
    let hr ← pyInt (← pyGetD stats "homeRuns" (.num 0))
    let avg ← floatOr0 (← pyGetD stats "avg" (.num 0))
    let obp ← floatOr0 (← pyGetD stats "obp" (.num 0))
    let slg ← floatOr0 (← pyGetD stats "slg" (.num 0))
    let sb ← pyInt (← pyGetD stats "stolenBases" (.num 0))
    let cs ← pyInt (← pyGetD stats "caughtStealing" (.num 0))
    pure { row with games_played := some gp, runs_scored := some rs,
                    home_runs := some hr, batting_avg := some avg,
                    obp := some obp, slg := some slg,
                    stolen_bases := some sb, caught_stealing := some cs }
  else if group = "pitching" then do
    let w ← pyInt (← pyGetD stats "wins" (.num 0))
    let l ← pyInt (← pyGetD stats "losses" (.num 0))
    let wp ← floatOr0 (← pyGetD stats "winPercentage" (.num 0))
    let era ← floatOr0 (← pyGetD stats "era" (.num 0))
    let so ← pyInt (← pyGetD stats "strikeOuts" (.num 0))
    let bb ← pyInt (← pyGetD stats "baseOnBalls" (.num 0))
    let ra ← pyInt (← pyGetD stats "runs" (.num 0))
    pure { row with wins := some w, losses := some l,
                    win_percentage := some wp, era := some era,
                    strikeouts := some so, walks := some bb,
                    runs_allowed := some ra }
  else
    pure row

/-- Team info of a stats block: the empty dict when there are no splits,
else the team field of the first split (src/fetch_mlb_data.py lines 160
to 162). -/
def teamInfoOf : List JVal → Except PyErr JVal
  | [] => pure (JVal.obj [])
  | s0 :: _ => pyGetD s0 "team" (.obj [])

/-- Processing of one stats block (one team): team info from the first
split when splits is nonempty, all splits merged into the single row, the
row kept only when its team_id is not None. -/
def normTeamBlock (season : Int) (now : String) (team : JVal) :
    Except PyErr (Option TeamStatRec) := do
  let splitsv ← pyGetD team "splits" (.arr [])
  let stat_splits ← pyIter splitsv
  let team_info ← teamInfoOf stat_splits
  let row0 ← teamStatsInit season now team_info
  let row ← foldE applySplit row0 stat_splits
  if row.team_id.isNull then pure none else pure (some row)

/-- fetch_team_stats normalization: one merged row per stats block, rows
with no team_id dropped; when no valid row remains the function returns
before calling upsert at all, otherwise it upserts into team_stats keyed
by (season, team_id). -/
def normTeamStats (season : Int) (now : String) (data : JVal) :
    Except PyErr (Option (UpsertCall TeamStatRec)) := do
  let statsv ← pyGetD data "stats" (.arr [])
  let teams ← pyIter statsv
  let opts ← mapE (normTeamBlock season now) teams
  let team_stats := opts.filterMap id
  match team_stats with
  | [] => pure none
  | _ => pure (some ⟨"team_stats", team_stats, ["season", "team_id"]⟩)

/-!
## The orchestrator (src/fetch_mlb_data.py lines 224 to 229)

The main block calls the five pipelines in a fixed order with no exception
handler; each pipeline either completes or raises (requests errors,
raise_for_status, or the re-raise inside the upsert helper). We model a
run by the outcome each pipeline would have if invoked, and record which
pipelines are actually invoked: an uncaught exception ends the process.
Pipeline indices: 0 fetch_games, 1 fetch_standings, 2 fetch_player_stats,
3 fetch_schedule, 4 fetch_team_stats.
-/

/-- The main block: invoke pipelines in order until one raises; return the
list of invoked pipelines and the final outcome of the process. -/
def mainRunner (o : Fin 5 → Except PyErr Unit) : List (Fin 5) × Except PyErr Unit :=
  match o 0 with
  | .error e => ([0], .error e)
  | .ok _ =>
    match o 1 with
    | .error e => ([0, 1], .error e)
    | .ok _ =>
      match o 2 with
      | .error e => ([0, 1, 2], .error e)
      | .ok _ =>
        match o 3 with
        | .error e => ([0, 1, 2, 3], .error e)
        | .ok _ =>
          match o 4 with
          | .error e => ([0, 1, 2, 3, 4], .error e)
          | .ok _ => ([0, 1, 2, 3, 4], .ok ())

/-!
## Client setup (src/fetch_mlb_data.py lines 8 to 10,
src/fetch_mlb_games.py lines 7 to 9)

Both scripts read the two secrets with os.environ.get, which returns None
when the variable is absent, and pass them straight to create_client at
module top level, before any HTTP request is issued.
-/

/-- The supabase client handle. -/
structure Client where
  url : String
  key : String

/-- Modelled from the spec: create_client is the third-party supabase SDK
constructor, not part of this repository. The spec requires that an absent
store URL or access key fail fast with a clear error, which is what the
SDK does when handed None for either argument. -/
def create_client (url key : Option String) : Except PyErr Client :=
  match url with
  | none => .error (.other "supabase_url is required")
  | some u =>
    match key with
    | none => .error (.other "supabase_key is required")
    | some k => .ok ⟨u, k⟩

/-- Module-level client setup: environment lookups then create_client. -/
def moduleInit (env : String → Option String) : Except PyErr Client :=
  create_client (env "SUPABASE_URL") (env "SUPABASE_SERVICE_ROLE_KEY")

/-- A whole script run: module initialization happens first; only when it
succeeds does the body run, performing its network calls (recorded as the
list of URLs fetched). An exception during initialization ends the process
with no network call. -/
def runScript (env : String → Option String)
    (body : Client → List String × Except PyErr Unit) :
    List String × Except PyErr Unit :=
  match moduleInit env with
  | .error e => ([], .error e)
  | .ok c => body c

/-!
## The standalone games script (src/fetch_mlb_games.py lines 19 to 27)

The per-game record of the older script uses direct subscript access for
every field and upserts one row at a time.
-/

/-- Record of the standalone script, dict-literal order (game_id, date,
home_team, away_team, status); date is the precomputed today string. -/
structure MlbGamesRec where
  game_id : JVal
  date : String
  home_team : JVal
  away_team : JVal
  status : JVal

/-- Record construction of the standalone script: every access is a
subscript, so any missing key raises KeyError. -/
def mlbGamesScriptRecord (today : String) (game : JVal) :
    Except PyErr MlbGamesRec := do
  let gid ← pySub game "gamePk"
  let teamsH ← pySub game "teams"
  let homeH ← pySub teamsH "home"
  let hteam ← pySub homeH "team"
  let hname ← pySub hteam "name"
  let teamsA ← pySub game "teams"
  let awayA ← pySub teamsA "away"
  let ateam ← pySub awayA "team"
  let aname ← pySub ateam "name"
  let statusObj ← pySub game "status"
  let status ← pySub statusObj "detailedState"
  pure ⟨gid, today, hname, aname, status⟩

/-!
## Store semantics for idempotence

Modelled from the spec: the downstream store write performed by the
supabase client is not part of this repository. Following the spec, a
table is a partial map from the conflict-key tuple to the stored row;
upserting a record overwrites the whole row sharing its key tuple, or
inserts it when no row matches, and a batch applies its records in order.
-/

/-- Modelled from the spec: one record applied to a table keyed by the
conflict key (full-row replace on a key match, insert otherwise). -/
def applyRow {κ α : Type} [DecidableEq κ] (key : α → κ)
    (tbl : κ → Option α) (r : α) : κ → Option α :=
  fun k => if k = key r then some r else tbl k

/-- Modelled from the spec: a batch of records applied in order. -/
def applyBatch {κ α : Type} [DecidableEq κ] (key : α → κ)
    (tbl : κ → Option α) (rows : List α) : κ → Option α :=
  rows.foldl (applyRow key) tbl

/-!
## Shape conditions for the safe-access properties

The safe normalizers tolerate arbitrarily missing fields. The conditions
below only require that a field which IS present have the container type
the code then feeds it into (an object where .get is called on it, an
array where it is iterated, a string where .lower is called, a number
where int() or float() is applied without a guarding try block). Every
field may be absent.
-/

/-- An optional field that, when present, must be a JSON object. -/
def optObjOk : Option JVal → Bool
  | none => true
  | some (.obj _) => true
  | some _ => false

/-- An optional field that, when present, must be an array whose members
all satisfy the given condition. -/
def optArrOfOk (p : JVal → Bool) : Option JVal → Bool
  | none => true
  | some (.arr xs) => xs.all p
  | some _ => false

/-- One side of the teams object in a schedule game: when present it is an
object whose team field, when present, is an object. -/
def sideOk : Option JVal → Bool
  | none => true
  | some (.obj hfs) => optObjOk (olookup hfs "team")
  | some _ => false

/-- The teams field of a game: when present it is an object whose home
and away sides are well shaped. -/
def teamsOk : Option JVal → Bool
  | none => true
  | some (.obj tfs) => sideOk (olookup tfs "home") && sideOk (olookup tfs "away")
  | some _ => false

/-- A game object as consumed by fetch_games and fetch_schedule. -/
def gameObjOk (g : JVal) : Bool :=
  match g with
  | .obj fs => optObjOk (olookup fs "status") && teamsOk (olookup fs "teams")
  | _ => false

/-- A date block: its games field, when present, is an array of games. -/
def dateObjOk (d : JVal) : Bool :=
  match d with
  | .obj fs => optArrOfOk gameObjOk (olookup fs "games")
  | _ => false

/-- A schedule document: its dates field, when present, is an array of
date blocks. -/
def gamesDataOk (data : JVal) : Bool :=
  match data with
  | .obj fs => optArrOfOk dateObjOk (olookup fs "dates")
  | _ => false

/-- A player stats split: player, stat and team, when present, are
objects (their leaves are fully guarded by the try block). -/
def splitObjOk (s : JVal) : Bool :=
  match s with
  | .obj fs =>
    optObjOk (olookup fs "player") && optObjOk (olookup fs "stat") &&
    optObjOk (olookup fs "team")
  | _ => false

/-- A stats row: its splits field, when present, is an array of splits. -/
def statsRowOk (r : JVal) : Bool :=
  match r with
  | .obj fs => optArrOfOk splitObjOk (olookup fs "splits")
  | _ => false

/-- A player stats document. -/
def playerDataOk (data : JVal) : Bool :=
  match data with
  | .obj fs => optArrOfOk statsRowOk (olookup fs "stats")
  | _ => false

/-- A stat field that, when present, must be numeric: fetch_team_stats
applies int() and float() with no guarding try block. -/
def numOrAbsent (fs : List (String × JVal)) (k : String) : Bool :=
  match olookup fs k with
  | none => true
  | some (.num _) => true
  | some _ => false

/-- The stat fields the hitting and pitching branches of fetch_team_stats
coerce with int() or float(). -/
def statKeys : List String :=
  ["gamesPlayed", "runs", "homeRuns", "avg", "obp", "slg", "stolenBases",
   "caughtStealing", "wins", "losses", "winPercentage", "era", "strikeOuts",
   "baseOnBalls"]

/-- A team split stat object: the fields consumed by the hitting and
pitching branches are numeric when present. -/
def statObjOk : Option JVal → Bool
  | none => true
  | some (.obj fs) => statKeys.all (fun k => numOrAbsent fs k)
  | some _ => false

/-- A team split group object: displayName is a string when present. -/
def groupObjOk : Option JVal → Bool
  | none => true
  | some (.obj gfs) =>
    (match olookup gfs "displayName" with
     | none => true
     | some (.str _) => true
     | some _ => false)
  | some _ => false

/-- A team stats split. -/
def teamSplitOk (s : JVal) : Bool :=
  match s with
  | .obj fs =>
    optObjOk (olookup fs "team") && groupObjOk (olookup fs "group") &&
    statObjOk (olookup fs "stat")
  | _ => false

/-- A team stats block: its splits field, when present, is an array of
team splits. -/
def teamBlockOk (t : JVal) : Bool :=
  match t with
  | .obj fs => optArrOfOk teamSplitOk (olookup fs "splits")
  | _ => false

/-- A team stats document. -/
def teamDataOk (data : JVal) : Bool :=
  match data with
  | .obj fs => optArrOfOk teamBlockOk (olookup fs "stats")
  | _ => false

/-!
## Concrete inputs used by the theorems
-/

/-- Scenario game 101: home A versus away B, scheduled, no scores. -/
def gameA101 : JVal :=
  .obj [("gamePk", .num 101), ("gameDate", .str "2025-07-04"),
        ("status", .obj [("detailedState", .str "Scheduled")]),
        ("teams", .obj [("home", .obj [("team", .obj [("name", .str "A")])]),
                        ("away", .obj [("team", .obj [("name", .str "B")])])])]

/-- Scenario game 102: home C versus away D, final, score 5 to 3. -/
def gameC102 : JVal :=
  .obj [("gamePk", .num 102), ("gameDate", .str "2025-07-04"),
        ("status", .obj [("detailedState", .str "Final")]),
        ("teams", .obj [("home", .obj [("team", .obj [("name", .str "C")]), ("score", .num 5)]),
                        ("away", .obj [("team", .obj [("name", .str "D")]), ("score", .num 3)])])]

/-- Scenario schedule response: one date block with the two games. -/
def scheduleScenario : JVal :=
  .obj [("dates", .arr [.obj [("games", .arr [gameA101, gameC102])]])]

/-- A schedule response whose only game object is empty: its natural key
gamePk is missing. -/
def emptyGameData : JVal :=
  .obj [("dates", .arr [.obj [("games", .arr [.obj []])]])]

/-- The all-null record fetch_games builds from an empty game object. -/
def nullGameRec : GameRec :=
  ⟨.null, .null, .null, .null, .null, .null, .null⟩

/-- A standings response whose team record has its team identity but no
wins field. -/
def standingsMissingWins : JVal :=
  .obj [("records", .arr [.obj [("teamRecords", .arr [
    .obj [("team", .obj [("id", .num 147), ("name", .str "Yankees")])]])]])]

/-- A standings team record whose gamesBack is the division-leader
sentinel. -/
def leaderTeamRecord : JVal :=
  .obj [("team", .obj [("id", .num 147), ("name", .str "Yankees")]),
        ("wins", .num 50), ("losses", .num 30),
        ("winningPercentage", .str "0.625"), ("gamesBack", .str "-")]

/-- A player stats response with one split whose natural key fields are
present (player id 660271) but whose team is absent. -/
def playerNoTeamData : JVal :=
  .obj [("stats", .arr [.obj [("splits", .arr [
    .obj [("player", .obj [("id", .num 660271), ("fullName", .str "Shohei Ohtani")]),
          ("stat", .obj [("homeRuns", .num 54)])]])]])]

/-- A player stats response with one complete split: player id 1, team
id 10, empty stat object. -/
def playerFullData : JVal :=
  .obj [("stats", .arr [.obj [("splits", .arr [
    .obj [("player", .obj [("id", .num 1), ("fullName", .str "X")]),
          ("team", .obj [("id", .num 10)]),
          ("stat", .obj [])]])]])]

/-- The record fetch_player_stats builds from the complete split above. -/
def playerFullRec : PlayerRec :=
  ⟨some 1, 2025, some 10, some "X", 0, 0, 0, 0, 0, 0, 0⟩

/-- A store stub accepting every write. -/
def storeOk : String → List GameRec → String → Except PyErr Nat :=
  fun _ _ _ => .ok 0

/-- Pipeline outcomes where the first pipeline raises a transport error
and every other pipeline would succeed. -/
def firstFails : Fin 5 → Except PyErr Unit :=
  fun i => if i = 0 then .error (.other "ConnectionError") else .ok ()

/-- An environment with no variables set. -/
def emptyEnv : String → Option String := fun _ => none

/-- A script body that would fetch one URL and succeed. -/
def fetchingBody : Client → List String × Except PyErr Unit :=
  fun _ => (["https://statsapi.mlb.com/api/v1/schedule"], .ok ())

/-!
## Builders for team stats inputs (claim about split-group merging)
-/

/-- A split group object with the given display name. -/
def mkGroup (g : String) : JVal :=
  .obj [("displayName", .str g)]

/-- A team stats split with the given team object, group name and stat
object. -/
def mkSplit (ti : JVal) (g : String) (st : JVal) : JVal :=
  .obj [("team", ti), ("group", mkGroup g), ("stat", st)]

/-- A team identity object. -/
def mkTeamInfo (tid : Int) (tname : String) : JVal :=
  .obj [("id", .num tid), ("name", .str tname)]

/-- A hitting stat object with every consumed field present. -/
def mkHittingStat (gp rs hr sb cs : Int) (avg obp slg : ℚ) : JVal :=
  .obj [("gamesPlayed", .num gp), ("runs", .num rs), ("homeRuns", .num hr),
        ("avg", .num avg), ("obp", .num obp), ("slg", .num slg),
        ("stolenBases", .num sb), ("caughtStealing", .num cs)]

/-- A pitching stat object with every consumed field present. -/
def mkPitchingStat (w l so bb ra : Int) (wp era : ℚ) : JVal :=
  .obj [("wins", .num w), ("losses", .num l), ("winPercentage", .num wp),
        ("era", .num era), ("strikeOuts", .num so), ("baseOnBalls", .num bb),
        ("runs", .num ra)]

/-- A team stats block holding the given splits. -/
def mkTeamBlock (splits : List JVal) : JVal :=
  .obj [("splits", .arr splits)]

/-- A minimal team stats response: one team, one hitting split with an
empty stat object. -/
def teamSimpleData : JVal :=
  .obj [("stats", .arr [mkTeamBlock [mkSplit (mkTeamInfo 1 "T") "hitting" (.obj [])]])]

/-- The merged row fetch_team_stats builds from the minimal response. -/
def teamSimpleRec : TeamStatRec :=
  ⟨2025, .num 1, .str "T", some 0, none, none, none, some 0, none, some 0,
   some 0, some 0, some 0, none, none, none, some 0, some 0, "now"⟩

/-!
## Generic lemmas about the error monad and the iteration combinators
-/

/-- Bind on a success reduces to the continuation. -/
@[simp]
theorem ebind_ok {α β : Type} (a : α) (f : α → Except PyErr β) :
    (Except.ok a >>= f) = f a := rfl

/-- Bind on an error propagates the error. -/
@[simp]
theorem ebind_err {α β : Type} (e : PyErr) (f : α → Except PyErr β) :
    ((Except.error e : Except PyErr α) >>= f) = .error e := rfl

/-- A successful computation has an ok form. -/
theorem exists_ok {α : Type} {x : Except PyErr α} (h : isOkE x = true) :
    ∃ u, x = .ok u := by
  cases x with
  | ok u => exact ⟨u, rfl⟩
  | error e => simp [isOkE] at h

/-- A failed computation has an error form. -/
theorem exists_error {α : Type} {x : Except PyErr α} (h : isOkE x = false) :
    ∃ e, x = .error e := by
  cases x with
  | ok u => simp [isOkE] at h
  | error e => exact ⟨e, rfl⟩

/-- A bind succeeds when its head succeeds and its continuation succeeds
on the delivered value. -/
theorem bind_isOk {α β : Type} {x : Except PyErr α} {f : α → Except PyErr β}
    (hx : isOkE x = true) (hf : ∀ a, x = .ok a → isOkE (f a) = true) :
    isOkE (x >>= f) = true := by
  cases x with
  | ok a => simpa using hf a rfl
  | error e => simp [isOkE] at hx

/-- Errors of a bind are errors of the head or of the continuation; here
specialized to the caught classification. -/
theorem bind_err_caught {α β : Type} {x : Except PyErr α} {f : α → Except PyErr β}
    (hx : ∀ e, x = .error e → isCaught e = true)
    (hf : ∀ a e, f a = .error e → isCaught e = true) :
    ∀ e, (x >>= f) = .error e → isCaught e = true := by
  intro e h
  cases x with
  | ok a => exact hf a e (by simpa using h)
  | error e2 => exact hx e (by simpa using h)

/-- A pure value never raises. -/
theorem pure_err_caught {α : Type} (a : α) :
    ∀ e, (pure a : Except PyErr α) = .error e → isCaught e = true := by
  intro e h
  exact absurd h (by simp [pure, Except.pure])

/-- Every member of a successful effectful map comes from a successful
application of the function to a member of the input. -/
theorem mapE_ok_mem {α β : Type} (f : α → Except PyErr β) :
    ∀ (xs : List α) (ys : List β), mapE f xs = .ok ys →
      ∀ y ∈ ys, ∃ x ∈ xs, f x = .ok y := by
  intro xs
  induction xs with
  | nil =>
    intro ys h y hy
    simp [mapE] at h
    subst h
    simp at hy
  | cons x rest ih =>
    intro ys h y hy
    rw [mapE] at h
    cases hfx : f x with
    | error e => rw [hfx] at h; exact absurd h (by simp)
    | ok y0 =>
      rw [hfx] at h
      cases hrest : mapE f rest with
      | error e => rw [hrest] at h; exact absurd h (by simp)
      | ok ys0 =>
        rw [hrest] at h
        have hys : ys = y0 :: ys0 := by
          have := h
          simp at this
          exact this.symm
        subst hys
        rcases List.mem_cons.mp hy with hy0 | hmem
        · exact ⟨x, List.mem_cons_self x rest, by rw [hfx, hy0]⟩
        · obtain ⟨x2, hx2, hfx2⟩ := ih ys0 hrest y hmem
          exact ⟨x2, List.mem_cons_of_mem x hx2, hfx2⟩

/-- An effectful map succeeds when the function succeeds on every member. -/
theorem mapE_isOk {α β : Type} (f : α → Except PyErr β) (xs : List α)
    (h : ∀ x ∈ xs, isOkE (f x) = true) : isOkE (mapE f xs) = true := by
  induction xs with
  | nil => simp [mapE, isOkE]
  | cons x rest ih =>
    rw [mapE]
    obtain ⟨u, hu⟩ := exists_ok (h x (List.mem_cons_self x rest))
    rw [hu]
    obtain ⟨us, hus⟩ := exists_ok (ih (fun y hy => h y (List.mem_cons_of_mem x hy)))
    rw [hus]
    rfl

/-- An effectful fold succeeds when the step succeeds from every state on
every member. -/
theorem foldE_isOk {α β : Type} (f : β → α → Except PyErr β) (xs : List α)
    (h : ∀ b, ∀ x ∈ xs, isOkE (f b x) = true) :
    ∀ b, isOkE (foldE f b xs) = true := by
  induction xs with
  | nil => intro b; simp [foldE, isOkE]
  | cons x rest ih =>
    intro b
    rw [foldE]
    obtain ⟨b2, hb2⟩ := exists_ok (h b x (List.mem_cons_self x rest))
    rw [hb2]
    exact ih (fun b3 y hy => h b3 y (List.mem_cons_of_mem x hy)) b2

/-!
## Claim C5: the end-to-end games scenario
-/

/-- Claim C5: on the scenario response (one date block, games 101 and
102), the games pipeline produces exactly the two records, status strings
verbatim, null scores for game 101 and scores 5 and 3 for game 102, and
issues exactly one upsert call on table games with conflict key game_id
carrying both records. -/
theorem games_scenario_end_to_end :
    fetchGamesRun scheduleScenario = .ok [⟨"games",
      [⟨.num 101, .str "2025-07-04", .str "Scheduled", .str "A", .str "B", .null, .null⟩,
       ⟨.num 102, .str "2025-07-04", .str "Final", .str "C", .str "D", .num 5, .num 3⟩],
      ["game_id"]⟩] := rfl

/-!
## Claim C8: the games-back sentinel
-/

/-- Claim C8: a standings team record whose gamesBack value is the
division-leader sentinel normalizes to games_back zero. -/
theorem games_back_dash_is_zero :
    (normStandingTeam (.num 2025) (.str "AL East") leaderTeamRecord).map
      StandingRec.games_back = .ok 0 := rfl

/-!
## Claim C2: upsert on an empty batch
-/

/-- Claim C2, corrected: upsert on an empty records list performs no store
call, logs one info line, and returns without raising; the Python function
returns None, not the write count 0 that the claim states. -/
theorem upsert_empty_is_noop {α : Type}
    (store : String → List α → String → Except PyErr Nat)
    (table : String) (conflict_cols : List String) :
    upsert store table [] conflict_cols =
      { logs := ["[INFO] No rows to insert for table: " ++ table]
        store_calls := []
        result := .ok none } := rfl

/-- Claim C2 counterexample: on an empty batch the helper returns None
(modelled as ok none), not the value 0 the claim asserts. -/
theorem upsert_empty_returns_none_not_zero :
    (upsert storeOk "games" ([] : List GameRec) ["game_id"]).result ≠
      .ok (some 0) := by
  intro h
  simp [upsert] at h

/-!
## Claim C1: records missing their natural key
-/

/-- Claim C1 counterexample: a game object with no gamePk is not dropped;
fetch_games passes a record with a null game_id to the upsert helper. -/
theorem null_key_game_reaches_upsert :
    fetchGamesRun emptyGameData = .ok [⟨"games", [nullGameRec], ["game_id"]⟩] ∧
    nullGameRec.game_id.isNull = true :=
  ⟨rfl, rfl⟩

/-!
## Claim C4: safe access counterexample
-/

/-- Claim C4 counterexample: the standings normalizer subscripts the wins
field directly and raises KeyError on a team record that lacks it, and the
standalone games script subscripts gamePk and raises on an empty game
object; neither yields a default. -/
theorem standings_and_script_crash_on_missing_field :
    normStandings 2025 standingsMissingWins = .error (.keyError "wins") ∧
    mlbGamesScriptRecord "2025-07-04" (.obj []) = .error (.keyError "gamePk") :=
  ⟨rfl, rfl⟩

/-!
## Claim C3: orchestrator failure behavior
-/

/-- Claim C3 counterexample: when the first pipeline raises a transport
error, the main block invokes only that pipeline; the remaining four never
run, contradicting the claim that a failure in one pipeline does not
prevent the others. -/
theorem first_failure_stops_run :
    mainRunner firstFails = ([0], .error (.other "ConnectionError")) := rfl

/-- Claim C3, corrected: the orchestrator runs the pipelines in order only
until the first failure; when every pipeline succeeds all five run, and a
failure in an earlier pipeline prevents every later pipeline from being
invoked, the error propagating out of the process. -/
theorem main_stops_at_first_failure :
    (∀ o : Fin 5 → Except PyErr Unit, (∀ i, isOkE (o i) = true) →
      mainRunner o = ([0, 1, 2, 3, 4], .ok ())) ∧
    (∀ (o : Fin 5 → Except PyErr Unit) (i j : Fin 5), isOkE (o i) = false →
      (∀ k, k < i → isOkE (o k) = true) → i < j → j ∉ (mainRunner o).1) := by
  constructor
  · intro o h
    obtain ⟨u0, h0⟩ := exists_ok (h 0)
    obtain ⟨u1, h1⟩ := exists_ok (h 1)
    obtain ⟨u2, h2⟩ := exists_ok (h 2)
    obtain ⟨u3, h3⟩ := exists_ok (h 3)
    obtain ⟨u4, h4⟩ := exists_ok (h 4)
    simp [mainRunner, h0, h1, h2, h3, h4]
  · intro o i j hi hprev hij
    obtain ⟨e, he⟩ := exists_error hi
    fin_cases i
    · have he0 : o 0 = Except.error e := he
      have hrun : mainRunner o = ([0], .error e) := by simp [mainRunner, he0]
      rw [hrun]
      intro hmem
      fin_cases j <;> first
        | exact absurd hij (by decide)
        | simp at hmem
    · obtain ⟨u0, h0⟩ := exists_ok (hprev 0 (by decide))
      have he1 : o 1 = Except.error e := he
      have hrun : mainRunner o = ([0, 1], .error e) := by simp [mainRunner, h0, he1]
      rw [hrun]
      intro hmem
      fin_cases j <;> first
        | exact absurd hij (by decide)
        | simp at hmem
    · obtain ⟨u0, h0⟩ := exists_ok (hprev 0 (by decide))
      obtain ⟨u1, h1⟩ := exists_ok (hprev 1 (by decide))
      have he2 : o 2 = Except.error e := he
      have hrun : mainRunner o = ([0, 1, 2], .error e) := by
        simp [mainRunner, h0, h1, he2]
      rw [hrun]
      intro hmem
      fin_cases j <;> first
        | exact absurd hij (by decide)
        | simp at hmem
    · obtain ⟨u0, h0⟩ := exists_ok (hprev 0 (by decide))
      obtain ⟨u1, h1⟩ := exists_ok (hprev 1 (by decide))
      obtain ⟨u2, h2⟩ := exists_ok (hprev 2 (by decide))
      have he3 : o 3 = Except.error e := he
      have hrun : mainRunner o = ([0, 1, 2, 3], .error e) := by
        simp [mainRunner, h0, h1, h2, he3]
      rw [hrun]
      intro hmem
      fin_cases j <;> first
        | exact absurd hij (by decide)
        | simp at hmem
    · obtain ⟨u0, h0⟩ := exists_ok (hprev 0 (by decide))
      obtain ⟨u1, h1⟩ := exists_ok (hprev 1 (by decide))
      obtain ⟨u2, h2⟩ := exists_ok (hprev 2 (by decide))
      obtain ⟨u3, h3⟩ := exists_ok (hprev 3 (by decide))
      have he4 : o 4 = Except.error e := he
      have hrun : mainRunner o = ([0, 1, 2, 3, 4], .error e) := by
        simp [mainRunner, h0, h1, h2, h3, he4]
      rw [hrun]
      intro hmem
      fin_cases j <;> exact absurd hij (by decide)

/-- Claim C3 witness: at the concrete run where the first pipeline fails,
the second pipeline is not invoked. -/
theorem main_stops_at_first_failure_w :
    (1 : Fin 5) ∉ (mainRunner firstFails).1 :=
  main_stops_at_first_failure.2 firstFails 0 1 rfl
    (by decide) (by decide)

/-!
## Claim C6: idempotence of the upsert write
-/

/-- A batch leaves keys it does not carry untouched. -/
theorem applyBatch_not_mem {κ α : Type} [DecidableEq κ] (key : α → κ)
    (rows : List α) :
    ∀ (tbl : κ → Option α) (k : κ), (∀ r ∈ rows, key r ≠ k) →
      applyBatch key tbl rows k = tbl k := by
  induction rows with
  | nil => intro tbl k _; rfl
  | cons r rest ih =>
    intro tbl k h
    have hr : key r ≠ k := h r (List.mem_cons_self r rest)
    have hstep : applyBatch key tbl (r :: rest) = applyBatch key (applyRow key tbl r) rest := by
      simp [applyBatch]
    rw [hstep, ih _ k (fun x hx => h x (List.mem_cons_of_mem r hx))]
    simp only [applyRow]
    rw [if_neg (fun hk : k = key r => hr hk.symm)]

/-- The value a batch stores at a key it carries does not depend on the
prior table state. -/
theorem applyBatch_mem {κ α : Type} [DecidableEq κ] (key : α → κ)
    (rows : List α) :
    ∀ k, (∃ r ∈ rows, key r = k) → ∀ tbl1 tbl2,
      applyBatch key tbl1 rows k = applyBatch key tbl2 rows k := by
  induction rows with
  | nil =>
    rintro k ⟨r, hr, _⟩ tbl1 tbl2
    exact absurd hr (List.not_mem_nil r)
  | cons r rest ih =>
    intro k hex tbl1 tbl2
    have hstep1 : applyBatch key tbl1 (r :: rest) = applyBatch key (applyRow key tbl1 r) rest := by
      simp [applyBatch]
    have hstep2 : applyBatch key tbl2 (r :: rest) = applyBatch key (applyRow key tbl2 r) rest := by
      simp [applyBatch]
    rw [hstep1, hstep2]
    by_cases hrest : ∃ r2 ∈ rest, key r2 = k
    · exact ih k hrest _ _
    · obtain ⟨w, hw, hkw⟩ := hex
      have hwr : w = r := by
        rcases List.mem_cons.mp hw with h | h
        · exact h
        · exact absurd ⟨w, h, hkw⟩ hrest
      have hk : key r = k := hwr ▸ hkw
      have hnot : ∀ x ∈ rest, key x ≠ k := fun x hx hxk => hrest ⟨x, hx, hxk⟩
      rw [applyBatch_not_mem key rest _ k hnot, applyBatch_not_mem key rest _ k hnot]
      simp [applyRow, hk]

/-- Claim C6: the store write is idempotent. Modelled from the spec (the
write itself is performed by the third-party client): a table maps each
conflict-key tuple to at most one row, a record replaces the whole row
sharing its key or is inserted, a batch applies in order. Applying the
same batch twice leaves exactly the state of applying it once. -/
theorem upsert_batch_idempotent {κ α : Type} [DecidableEq κ] (key : α → κ)
    (tbl : κ → Option α) (rows : List α) :
    applyBatch key (applyBatch key tbl rows) rows = applyBatch key tbl rows := by
  funext k
  by_cases h : ∃ r ∈ rows, key r = k
  · exact applyBatch_mem key rows k h _ _
  · push_neg at h
    rw [applyBatch_not_mem key rows _ k h]

/-!
## Claim C9: missing secrets fail before any network call
-/

/-- Claim C9: when either required secret is absent from the environment,
module initialization raises before the body runs, so the process performs
no network call and ends in error. The create_client behavior is modelled
from the spec, the constructor itself being third-party code. -/
theorem missing_secret_fails_before_network
    (env : String → Option String)
    (body : Client → List String × Except PyErr Unit)
    (h : env "SUPABASE_URL" = none ∨ env "SUPABASE_SERVICE_ROLE_KEY" = none) :
    (runScript env body).1 = [] ∧ isOkE (runScript env body).2 = false := by
  rcases h with h | h
  · simp [runScript, moduleInit, create_client, h, isOkE]
  · cases hu : env "SUPABASE_URL" with
    | none => simp [runScript, moduleInit, create_client, hu, isOkE]
    | some u => simp [runScript, moduleInit, create_client, hu, h, isOkE]

/-- Claim C9 witness: with an empty environment the script performs no
network call and fails. -/
theorem missing_secret_fails_before_network_w :
    (runScript emptyEnv fetchingBody).1 = [] ∧
    isOkE (runScript emptyEnv fetchingBody).2 = false :=
  missing_secret_fails_before_network emptyEnv fetchingBody (Or.inl rfl)

/-!
## Structure of the player stats batch (claims C1 and C10)
-/

/-- A split that yields an appended record passed the ids filter: both
player_id and team_id of the record are not None. -/
theorem normPlayerSplit_some {year : Int} {split : JVal} {r : PlayerRec}
    (h : normPlayerSplit year split = .ok (some r)) :
    r.player_id ≠ none ∧ r.team_id ≠ none := by
  rw [normPlayerSplit] at h
  cases h1 : pyGetD split "player" (.obj []) with
  | error e => rw [h1] at h; simp at h
  | ok player =>
    rw [h1, ebind_ok] at h
    cases h2 : pyGetD split "stat" (.obj []) with
    | error e => rw [h2] at h; simp at h
    | ok stat =>
      rw [h2, ebind_ok] at h
      cases h3 : pyGetD split "team" (.obj []) with
      | error e => rw [h3] at h; simp at h
      | ok team_info =>
        rw [h3, ebind_ok] at h
        split at h
        · rename_i rec hb
          split at h
          · rename_i hcond
            have hrr : rec = r := by simpa [pure, Except.pure] using h
            exact hrr ▸ hcond
          · simp [pure, Except.pure] at h
        · rename_i e hb
          split at h
          · simp [pure, Except.pure] at h
          · simp at h

/-- Every record of a successful player stats batch passed the ids
filter. -/
theorem normPlayerStats_rows {year : Int} {data : JVal}
    {call : UpsertCall PlayerRec} (h : normPlayerStats year data = .ok call) :
    ∀ r ∈ call.rows, r.player_id ≠ none ∧ r.team_id ≠ none := by
  intro r hr
  rw [normPlayerStats] at h
  cases h1 : pyGetD data "stats" (.arr []) with
  | error e => rw [h1] at h; simp at h
  | ok statsv =>
    rw [h1, ebind_ok] at h
    cases h2 : pyIter statsv with
    | error e => rw [h2] at h; simp at h
    | ok statsRows =>
      rw [h2, ebind_ok] at h
      cases h3 : mapE
          (fun row => do
            let splitsv ← pyGetD row "splits" (.arr [])
            let splits ← pyIter splitsv
            mapE (normPlayerSplit year) splits)
          statsRows with
      | error e => rw [h3] at h; simp at h
      | ok perRow =>
        rw [h3, ebind_ok] at h
        have hcall : call = ⟨"player_season_stats", perRow.flatten.filterMap id,
            ["player_id", "season"]⟩ := by
          simpa [pure, Except.pure] using h.symm
        rw [hcall] at hr
        obtain ⟨o, ho, hid⟩ := List.mem_filterMap.mp hr
        obtain ⟨l, hl, hol⟩ := List.mem_flatten.mp ho
        obtain ⟨row, _, hfrow⟩ := mapE_ok_mem _ statsRows perRow h3 l hl
        cases h4 : pyGetD row "splits" (.arr []) with
        | error e => rw [h4] at hfrow; simp at hfrow
        | ok splitsv =>
          rw [h4, ebind_ok] at hfrow
          cases h5 : pyIter splitsv with
          | error e => rw [h5] at hfrow; simp at hfrow
          | ok splits =>
            rw [h5, ebind_ok] at hfrow
            obtain ⟨split, _, hsplit⟩ := mapE_ok_mem _ splits l hfrow o hol
            have ho2 : o = some r := hid
            rw [ho2] at hsplit
            exact normPlayerSplit_some hsplit

/-- Claim C10: the player stats pipeline drops every record whose team_id
is None even when its natural key (player_id, season) is complete: no
record with a None team_id or None player_id ever reaches the upsert call,
and on the concrete response whose only split has player id 660271 but no
team, the batch passed to upsert is empty rather than an error. -/
theorem player_stats_drops_null_team :
    (∀ (year : Int) (data : JVal) (call : UpsertCall PlayerRec),
      normPlayerStats year data = .ok call →
        ∀ r ∈ call.rows, r.team_id ≠ none ∧ r.player_id ≠ none) ∧
    normPlayerStats 2025 playerNoTeamData =
      .ok ⟨"player_season_stats", [], ["player_id", "season"]⟩ := by
  constructor
  · intro year data call h r hr
    exact (normPlayerStats_rows h r hr).symm
  · rfl

/-- Claim C10 witness: the general part applied to the concrete complete
split (player id 1, team id 10). -/
theorem player_stats_drops_null_team_w :
    playerFullRec.team_id ≠ none ∧ playerFullRec.player_id ≠ none :=
  player_stats_drops_null_team.1 2025 playerFullData
    ⟨"player_season_stats", [playerFullRec], ["player_id", "season"]⟩
    rfl playerFullRec (by simp)

/-!
## Structure of the team stats batch (claim C1)
-/

/-- A team block that yields a row passed the team_id filter. -/
theorem normTeamBlock_some {season : Int} {now : String} {team : JVal}
    {r : TeamStatRec} (h : normTeamBlock season now team = .ok (some r)) :
    r.team_id.isNull = false := by
  rw [normTeamBlock] at h
  cases h1 : pyGetD team "splits" (.arr []) with
  | error e => rw [h1] at h; simp at h
  | ok splitsv =>
    rw [h1, ebind_ok] at h
    cases h2 : pyIter splitsv with
    | error e => rw [h2] at h; simp at h
    | ok stat_splits =>
      rw [h2, ebind_ok] at h
      cases h3 : teamInfoOf stat_splits with
      | error e => rw [h3] at h; simp at h
      | ok team_info =>
        rw [h3, ebind_ok] at h
        cases h4 : teamStatsInit season now team_info with
        | error e => rw [h4] at h; simp at h
        | ok row0 =>
          rw [h4, ebind_ok] at h
          cases h5 : foldE applySplit row0 stat_splits with
          | error e => rw [h5] at h; simp at h
          | ok row =>
            rw [h5, ebind_ok] at h
            by_cases hn : row.team_id.isNull = true
            · rw [if_pos hn] at h
              simp [pure, Except.pure] at h
            · rw [if_neg hn] at h
              have hrr : row = r := by simpa [pure, Except.pure] using h
              rw [← hrr]
              exact Bool.not_eq_true _ ▸ hn

/-- Every record of a successful team stats upsert call has a non-null
team_id. -/
theorem normTeamStats_rows {season : Int} {now : String} {data : JVal}
    {call : UpsertCall TeamStatRec}
    (h : normTeamStats season now data = .ok (some call)) :
    ∀ r ∈ call.rows, r.team_id.isNull = false := by
  intro r hr
  rw [normTeamStats] at h
  cases h1 : pyGetD data "stats" (.arr []) with
  | error e => rw [h1] at h; simp at h
  | ok statsv =>
    rw [h1, ebind_ok] at h
    cases h2 : pyIter statsv with
    | error e => rw [h2] at h; simp at h
    | ok teams =>
      rw [h2, ebind_ok] at h
      cases h3 : mapE (normTeamBlock season now) teams with
      | error e => rw [h3] at h; simp at h
      | ok opts =>
        rw [h3, ebind_ok] at h
        cases hts : opts.filterMap id with
        | nil => rw [hts] at h; simp [pure, Except.pure] at h
        | cons t ts =>
          rw [hts] at h
          have hcall : call = ⟨"team_stats", t :: ts, ["season", "team_id"]⟩ := by
            simpa [pure, Except.pure] using h.symm
          rw [hcall] at hr
          have hr2 : r ∈ opts.filterMap id := by rw [hts]; exact hr
          obtain ⟨o, ho, hid⟩ := List.mem_filterMap.mp hr2
          obtain ⟨blk, _, hblk⟩ := mapE_ok_mem _ teams opts h3 o ho
          have ho2 : o = some r := hid
          rw [ho2] at hblk
          exact normTeamBlock_some hblk

/-- Claim C1, corrected: only the player stats and team stats pipelines
validate key fields, and what they enforce is non-null ids (player_id and
team_id for player stats, team_id for team stats); every record those two
pipelines pass to upsert has those fields non-null. The games and schedule
pipelines perform no such check and pass records with a null game_id
through, and the standings pipeline raises instead of dropping when the
team identity is missing. -/
theorem filtered_pipelines_write_nonnull_keys :
    (∀ (year : Int) (data : JVal) (call : UpsertCall PlayerRec),
      normPlayerStats year data = .ok call → ∀ r ∈ call.rows, r.player_id ≠ none) ∧
    (∀ (season : Int) (now : String) (data : JVal) (call : UpsertCall TeamStatRec),
      normTeamStats season now data = .ok (some call) →
        ∀ r ∈ call.rows, r.team_id.isNull = false) := by
  constructor
  · intro year data call h r hr
    exact (normPlayerStats_rows h r hr).1
  · intro season now data call h r hr
    exact normTeamStats_rows h r hr

/-- Claim C1 witness: both parts applied to concrete successful batches. -/
theorem filtered_pipelines_write_nonnull_keys_w :
    playerFullRec.player_id ≠ none ∧ teamSimpleRec.team_id.isNull = false :=
  ⟨filtered_pipelines_write_nonnull_keys.1 2025 playerFullData
      ⟨"player_season_stats", [playerFullRec], ["player_id", "season"]⟩
      rfl playerFullRec (by simp),
   filtered_pipelines_write_nonnull_keys.2 2025 "now" teamSimpleData
      ⟨"team_stats", [teamSimpleRec], ["season", "team_id"]⟩
      rfl teamSimpleRec (by simp)⟩

/-!
## Claim C7: merging of team stats split groups
-/

/-- Python int() of an integral JSON number is that integer. -/
theorem pyInt_num_int (n : Int) : pyInt (.num (n : ℚ)) = .ok n := by
  simp [pyInt, pyTrunc, Rat.num_intCast, Rat.den_intCast]

/-- The float(v or 0) pattern on a JSON number is the identity. -/
theorem floatOr0_num (q : ℚ) : floatOr0 (.num q) = .ok q := by
  by_cases h : q = 0 <;> simp [floatOr0, pyTruthy, pyFloat, h]

/-- A hitting split populates exactly the hitting fields of the row. -/
theorem applySplit_hitting (row : TeamStatRec) (ti : JVal) (gp rs hr sb cs : Int)
    (avg obp slg : ℚ) :
    applySplit row (.obj [("team", ti),
      ("group", .obj [("displayName", .str "hitting")]),
      ("stat", .obj [("gamesPlayed", .num gp), ("runs", .num rs), ("homeRuns", .num hr),
                     ("avg", .num avg), ("obp", .num obp), ("slg", .num slg),
                     ("stolenBases", .num sb), ("caughtStealing", .num cs)])]) =
      .ok { row with games_played := some gp, runs_scored := some rs,
                     home_runs := some hr, batting_avg := some avg,
                     obp := some obp, slg := some slg,
                     stolen_bases := some sb, caught_stealing := some cs } := by
  have hlow : pyLower (.str "hitting") = .ok "hitting" := rfl
  simp [applySplit, pyGetD, olookup, hlow, pyInt_num_int, floatOr0_num, pure, Except.pure]

/-- A pitching split populates exactly the pitching fields of the row. -/
theorem applySplit_pitching (row : TeamStatRec) (ti : JVal) (w l so bb ra : Int)
    (wp era : ℚ) :
    applySplit row (.obj [("team", ti),
      ("group", .obj [("displayName", .str "pitching")]),
      ("stat", .obj [("wins", .num w), ("losses", .num l), ("winPercentage", .num wp),
                     ("era", .num era), ("strikeOuts", .num so), ("baseOnBalls", .num bb),
                     ("runs", .num ra)])]) =
      .ok { row with wins := some w, losses := some l,
                     win_percentage := some wp, era := some era,
                     strikeouts := some so, walks := some bb,
                     runs_allowed := some ra } := by
  have hlow : pyLower (.str "pitching") = .ok "pitching" := rfl
  simp [applySplit, pyGetD, olookup, hlow, pyInt_num_int, floatOr0_num, pure, Except.pure]

/-- A fielding split leaves the row unchanged: no field is mapped from
the fielding group. -/
theorem applySplit_fielding (row : TeamStatRec) (ti fs : JVal) :
    applySplit row (.obj [("team", ti),
      ("group", .obj [("displayName", .str "fielding")]),
      ("stat", fs)]) = .ok row := by
  have hlow : pyLower (.str "fielding") = .ok "fielding" := rfl
  simp [applySplit, pyGetD, olookup, hlow, pure, Except.pure]

/-- Claim C7: a team whose splits arrive as hitting and pitching groups
(with or without a third fielding group, whatever its stat payload) is
merged into exactly one record in which the hitting-only fields (such as
batting_avg) come from the hitting group and the pitching-only fields
(such as era) from the pitching group; with the hitting group alone every
pitching field stays at its default None, and the pipeline upserts the
single merged record keyed by (season, team_id). -/
theorem team_stats_merges_split_groups (season : Int) (now tname : String)
    (tid gp rs hr sb cs w l so bb ra : Int) (avg obp slg wp era : ℚ) (fs : JVal) :
    (normTeamBlock season now (mkTeamBlock
        [mkSplit (mkTeamInfo tid tname) "hitting" (mkHittingStat gp rs hr sb cs avg obp slg),
         mkSplit (mkTeamInfo tid tname) "pitching" (mkPitchingStat w l so bb ra wp era)]) =
      .ok (some ⟨season, .num tid, .str tname, some gp, some w, some l, some wp,
                 some rs, some ra, some hr, some avg, some obp, some slg, some era,
                 some so, some bb, some sb, some cs, now⟩)) ∧
    (normTeamBlock season now (mkTeamBlock
        [mkSplit (mkTeamInfo tid tname) "hitting" (mkHittingStat gp rs hr sb cs avg obp slg),
         mkSplit (mkTeamInfo tid tname) "pitching" (mkPitchingStat w l so bb ra wp era),
         mkSplit (mkTeamInfo tid tname) "fielding" fs]) =
      .ok (some ⟨season, .num tid, .str tname, some gp, some w, some l, some wp,
                 some rs, some ra, some hr, some avg, some obp, some slg, some era,
                 some so, some bb, some sb, some cs, now⟩)) ∧
    (normTeamBlock season now (mkTeamBlock
        [mkSplit (mkTeamInfo tid tname) "hitting" (mkHittingStat gp rs hr sb cs avg obp slg)]) =
      .ok (some ⟨season, .num tid, .str tname, some gp, none, none, none,
                 some rs, none, some hr, some avg, some obp, some slg, none,
                 none, none, some sb, some cs, now⟩)) ∧
    (normTeamStats season now (.obj [("stats", .arr [mkTeamBlock
        [mkSplit (mkTeamInfo tid tname) "hitting" (mkHittingStat gp rs hr sb cs avg obp slg),
         mkSplit (mkTeamInfo tid tname) "pitching" (mkPitchingStat w l so bb ra wp era)]])]) =
      .ok (some ⟨"team_stats",
        [⟨season, .num tid, .str tname, some gp, some w, some l, some wp,
          some rs, some ra, some hr, some avg, some obp, some slg, some era,
          some so, some bb, some sb, some cs, now⟩], ["season", "team_id"]⟩)) := by
  refine ⟨?_, ?_, ?_, ?_⟩ <;>
    simp [normTeamStats, mapE, normTeamBlock, mkTeamBlock, mkSplit, mkGroup, mkTeamInfo,
          mkHittingStat, mkPitchingStat, teamInfoOf, teamStatsInit, pyGetD, pyGet, pyIter,
          olookup, foldE, applySplit_hitting, applySplit_pitching, applySplit_fielding,
          JVal.isNull, pure, Except.pure]

/-!
## Claim C4: safe access never crashes on missing fields

Destructor lemmas for the shape conditions, then one safety lemma per
normalizer that uses safe access throughout. The standings normalizer is
excluded: it subscripts directly and its crash is exhibited above.
-/

theorem optObj_dest {o : Option JVal} (h : optObjOk o = true) :
    ∃ gs, o.getD (JVal.obj []) = .obj gs := by
  cases o with
  | none => exact ⟨[], rfl⟩
  | some v =>
    cases v
    case obj gs => exact ⟨gs, rfl⟩
    all_goals simp [optObjOk] at h

theorem optArr_dest {p : JVal → Bool} {o : Option JVal}
    (h : optArrOfOk p o = true) :
    ∃ xs, o.getD (JVal.arr []) = .arr xs ∧ ∀ x ∈ xs, p x = true := by
  cases o with
  | none => exact ⟨[], rfl, by simp⟩
  | some v =>
    cases v
    case arr xs =>
      refine ⟨xs, rfl, ?_⟩
      simpa [optArrOfOk, List.all_eq_true] using h
    all_goals simp [optArrOfOk] at h

theorem sideOk_dest {o : Option JVal} (h : sideOk o = true) :
    ∃ hfs, o.getD (JVal.obj []) = .obj hfs ∧
      optObjOk (olookup hfs "team") = true := by
  cases o with
  | none => exact ⟨[], rfl, rfl⟩
  | some v =>
    cases v
    case obj hfs => exact ⟨hfs, rfl, by simpa [sideOk] using h⟩
    all_goals simp [sideOk] at h

theorem teamsOk_dest {o : Option JVal} (h : teamsOk o = true) :
    ∃ tfs, o.getD (JVal.obj []) = .obj tfs ∧
      sideOk (olookup tfs "home") = true ∧ sideOk (olookup tfs "away") = true := by
  cases o with
  | none => exact ⟨[], rfl, rfl, rfl⟩
  | some v =>
    cases v
    case obj tfs =>
      refine ⟨tfs, rfl, ?_⟩
      simpa [teamsOk, Bool.and_eq_true] using h
    all_goals simp [teamsOk] at h

theorem normGame_isOk {g : JVal} (hg : gameObjOk g = true) :
    isOkE (normGame g) = true := by
  cases g
  case obj fs =>
    simp only [gameObjOk, Bool.and_eq_true] at hg
    obtain ⟨hst, hts⟩ := hg
    obtain ⟨sfs, hsfs⟩ := optObj_dest hst
    obtain ⟨tfs, htfs, hhome, haway⟩ := teamsOk_dest hts
    obtain ⟨hfs, hhfs, hhteam⟩ := sideOk_dest hhome
    obtain ⟨afs, hafs, hateam⟩ := sideOk_dest haway
    obtain ⟨h2fs, hh2⟩ := optObj_dest hhteam
    obtain ⟨a2fs, ha2⟩ := optObj_dest hateam
    simp [normGame, pyGet, pyGetD, hsfs, htfs, hhfs, hafs, hh2, ha2, isOkE,
          pure, Except.pure]
  all_goals simp [gameObjOk] at hg

theorem normScheduleGame_isOk {g : JVal} (hg : gameObjOk g = true) :
    isOkE (normScheduleGame g) = true := by
  cases g
  case obj fs =>
    simp only [gameObjOk, Bool.and_eq_true] at hg
    obtain ⟨hst, hts⟩ := hg
    obtain ⟨tfs, htfs, hhome, haway⟩ := teamsOk_dest hts
    obtain ⟨hfs, hhfs, hhteam⟩ := sideOk_dest hhome
    obtain ⟨afs, hafs, hateam⟩ := sideOk_dest haway
    obtain ⟨h2fs, hh2⟩ := optObj_dest hhteam
    obtain ⟨a2fs, ha2⟩ := optObj_dest hateam
    simp [normScheduleGame, pyGet, pyGetD, htfs, hhfs, hafs, hh2, ha2, isOkE,
          pure, Except.pure]
  all_goals simp [gameObjOk] at hg

theorem normGames_isOk {data : JVal} (h : gamesDataOk data = true) :
    isOkE (normGames data) = true := by
  cases data
  case obj fs =>
    simp only [gamesDataOk] at h
    obtain ⟨dates, hdates, hall⟩ := optArr_dest h
    simp only [normGames, pyGetD, ebind_ok, hdates, pyIter]
    apply bind_isOk
    · apply mapE_isOk
      intro date hdate
      have hd := hall date hdate
      cases date
      case obj dfs =>
        simp only [dateObjOk] at hd
        obtain ⟨games, hgames, hgall⟩ := optArr_dest hd
        simp only [pyGetD, ebind_ok, hgames, pyIter]
        apply mapE_isOk
        intro g hgmem
        exact normGame_isOk (hgall g hgmem)
      all_goals simp [dateObjOk] at hd
    · intro a _
      rfl
  all_goals simp [gamesDataOk] at h

theorem normSchedule_isOk {data : JVal} (h : gamesDataOk data = true) :
    isOkE (normSchedule data) = true := by
  cases data
  case obj fs =>
    simp only [gamesDataOk] at h
    obtain ⟨dates, hdates, hall⟩ := optArr_dest h
    simp only [normSchedule, pyGetD, ebind_ok, hdates, pyIter]
    apply bind_isOk
    · apply mapE_isOk
      intro date hdate
      have hd := hall date hdate
      cases date
      case obj dfs =>
        simp only [dateObjOk] at hd
        obtain ⟨games, hgames, hgall⟩ := optArr_dest hd
        simp only [pyGetD, ebind_ok, hgames, pyIter]
        apply mapE_isOk
        intro g hgmem
        exact normScheduleGame_isOk (hgall g hgmem)
      all_goals simp [dateObjOk] at hd
    · intro a _
      rfl
  all_goals simp [gamesDataOk] at h

theorem pyInt_err_caught (v : JVal) :
    ∀ e, pyInt v = .error e → isCaught e = true := by
  intro e h
  cases v with
  | num q => exact absurd h (by simp [pyInt])
  | bool b => exact absurd h (by simp [pyInt])
  | str s =>
    rw [pyInt] at h
    cases hp : parseIntChars s.data with
    | some n => rw [hp] at h; exact absurd h (by simp)
    | none =>
      rw [hp] at h
      have he : e = .valueError "invalid literal for int" := by
        simpa using h.symm
      rw [he]; rfl
  | null =>
    have he : e = .typeError "int argument" := by simpa [pyInt] using h.symm
    rw [he]; rfl
  | arr xs =>
    have he : e = .typeError "int argument" := by simpa [pyInt] using h.symm
    rw [he]; rfl
  | obj ofs =>
    have he : e = .typeError "int argument" := by simpa [pyInt] using h.symm
    rw [he]; rfl

theorem pyFloat_err_caught (v : JVal) :
    ∀ e, pyFloat v = .error e → isCaught e = true := by
  intro e h
  cases v with
  | num q => exact absurd h (by simp [pyFloat])
  | bool b => exact absurd h (by simp [pyFloat])
  | str s =>
    rw [pyFloat] at h
    cases hp : parseFloatChars s.data with
    | some n => rw [hp] at h; exact absurd h (by simp)
    | none =>
      rw [hp] at h
      have he : e = .valueError "could not convert string to float" := by
        simpa using h.symm
      rw [he]; rfl
  | null =>
    have he : e = .typeError "float argument" := by simpa [pyFloat] using h.symm
    rw [he]; rfl
  | arr xs =>
    have he : e = .typeError "float argument" := by simpa [pyFloat] using h.symm
    rw [he]; rfl
  | obj ofs =>
    have he : e = .typeError "float argument" := by simpa [pyFloat] using h.symm
    rw [he]; rfl

theorem optIntIfTruthy_err_caught (v : JVal) :
    ∀ e, optIntIfTruthy v = .error e → isCaught e = true := by
  intro e h
  rw [optIntIfTruthy] at h
  split at h
  · cases hp : pyInt v with
    | ok n => rw [hp] at h; exact absurd h (by simp)
    | error e2 =>
      rw [hp] at h
      have he : e2 = e := by simpa using h
      exact he ▸ pyInt_err_caught v e2 hp
  · exact absurd h (by simp)

theorem intIfTruthy_err_caught (cond v : JVal) :
    ∀ e, intIfTruthy cond v = .error e → isCaught e = true := by
  intro e h
  rw [intIfTruthy] at h
  split at h
  · exact pyInt_err_caught v e h
  · exact absurd h (by simp)

theorem intOr0_err_caught (v : JVal) :
    ∀ e, intOr0 v = .error e → isCaught e = true := by
  intro e h
  exact pyInt_err_caught _ e h

theorem floatOr0_err_caught (v : JVal) :
    ∀ e, floatOr0 v = .error e → isCaught e = true := by
  intro e h
  exact pyFloat_err_caught _ e h

theorem buildPlayerRec_err_caught (year : Int) (pf sf tf : List (String × JVal)) :
    ∀ e, buildPlayerRec year (.obj pf) (.obj sf) (.obj tf) = .error e →
      isCaught e = true := by
  simp only [buildPlayerRec, pyGet, pyGetD, ebind_ok]
  refine bind_err_caught (optIntIfTruthy_err_caught _) (fun a => ?_)
  refine bind_err_caught (optIntIfTruthy_err_caught _) (fun b => ?_)
  refine bind_err_caught (intIfTruthy_err_caught _ _) (fun c => ?_)
  refine bind_err_caught (floatOr0_err_caught _) (fun d => ?_)
  refine bind_err_caught (floatOr0_err_caught _) (fun f => ?_)
  refine bind_err_caught (intOr0_err_caught _) (fun g => ?_)
  refine bind_err_caught (intOr0_err_caught _) (fun i => ?_)
  refine bind_err_caught (floatOr0_err_caught _) (fun j => ?_)
  refine bind_err_caught (intOr0_err_caught _) (fun k => ?_)
  exact pure_err_caught _

theorem normPlayerSplit_isOk {year : Int} {split : JVal}
    (h : splitObjOk split = true) :
    isOkE (normPlayerSplit year split) = true := by
  cases split
  case obj fs =>
    simp only [splitObjOk, Bool.and_eq_true] at h
    obtain ⟨⟨hp, hs⟩, ht⟩ := h
    obtain ⟨pf, hpf⟩ := optObj_dest hp
    obtain ⟨sf, hsf⟩ := optObj_dest hs
    obtain ⟨tf, htf⟩ := optObj_dest ht
    simp only [normPlayerSplit, pyGetD, ebind_ok, hpf, hsf, htf]
    cases hb : buildPlayerRec year (.obj pf) (.obj sf) (.obj tf) with
    | ok rec =>
      simp only [hb]
      split <;> rfl
    | error e =>
      have hc := buildPlayerRec_err_caught year pf sf tf e hb
      simp [hb, hc, isOkE, pure, Except.pure]
  all_goals simp [splitObjOk] at h

theorem normPlayerStats_isOk {year : Int} {data : JVal}
    (h : playerDataOk data = true) :
    isOkE (normPlayerStats year data) = true := by
  cases data
  case obj fs =>
    simp only [playerDataOk] at h
    obtain ⟨rows, hrows, hall⟩ := optArr_dest h
    simp only [normPlayerStats, pyGetD, ebind_ok, hrows, pyIter]
    apply bind_isOk
    · apply mapE_isOk
      intro row hrow
      have hr := hall row hrow
      cases row
      case obj rfs =>
        simp only [statsRowOk] at hr
        obtain ⟨splits, hsplits, hsall⟩ := optArr_dest hr
        simp only [pyGetD, ebind_ok, hsplits, pyIter]
        apply mapE_isOk
        intro s hsmem
        exact normPlayerSplit_isOk (hsall s hsmem)
      all_goals simp [statsRowOk] at hr
    · intro a _
      rfl
  all_goals simp [playerDataOk] at h

theorem numOrAbsent_dest {fs : List (String × JVal)} {k : String}
    (h : numOrAbsent fs k = true) :
    ∃ q, (olookup fs k).getD (JVal.num 0) = .num q := by
  cases ho : olookup fs k with
  | none => exact ⟨0, by simp [ho]⟩
  | some v =>
    cases v
    case num q => exact ⟨q, by simp [ho]⟩
    all_goals (rw [numOrAbsent, ho] at h; simp at h)

theorem statObj_dest {o : Option JVal} (h : statObjOk o = true) :
    ∃ sfs, o.getD (JVal.obj []) = .obj sfs ∧
      ∀ k ∈ statKeys, numOrAbsent sfs k = true := by
  cases o with
  | none => exact ⟨[], rfl, fun k _ => rfl⟩
  | some v =>
    cases v
    case obj sfs =>
      refine ⟨sfs, rfl, ?_⟩
      simpa [statObjOk, List.all_eq_true] using h
    all_goals simp [statObjOk] at h

theorem groupOk_dest {o : Option JVal} (h : groupObjOk o = true) :
    ∃ gfs ds, o.getD (JVal.obj []) = .obj gfs ∧
      (olookup gfs "displayName").getD (JVal.str "") = .str ds := by
  cases o with
  | none => exact ⟨[], "", rfl, rfl⟩
  | some v =>
    cases v
    case obj gfs =>
      refine ⟨gfs, ?_⟩
      cases hd : olookup gfs "displayName" with
      | none => exact ⟨"", rfl, by simp [hd]⟩
      | some w =>
        cases w
        case str ds => exact ⟨ds, rfl, by simp [hd]⟩
        all_goals (rw [groupObjOk, hd] at h; simp at h)
    all_goals simp [groupObjOk] at h

theorem applySplit_isOk {s : JVal} (hs : teamSplitOk s = true) :
    ∀ row, isOkE (applySplit row s) = true := by
  intro row
  cases s
  case obj fs =>
    simp only [teamSplitOk, Bool.and_eq_true] at hs
    obtain ⟨⟨htm, hg⟩, hst⟩ := hs
    obtain ⟨gfs, ds, hgfs, hds⟩ := groupOk_dest hg
    obtain ⟨sfs, hsfs, hnums⟩ := statObj_dest hst
    obtain ⟨q1, hq1⟩ := numOrAbsent_dest (hnums "gamesPlayed" (by simp [statKeys]))
    obtain ⟨q2, hq2⟩ := numOrAbsent_dest (hnums "runs" (by simp [statKeys]))
    obtain ⟨q3, hq3⟩ := numOrAbsent_dest (hnums "homeRuns" (by simp [statKeys]))
    obtain ⟨q4, hq4⟩ := numOrAbsent_dest (hnums "avg" (by simp [statKeys]))
    obtain ⟨q5, hq5⟩ := numOrAbsent_dest (hnums "obp" (by simp [statKeys]))
    obtain ⟨q6, hq6⟩ := numOrAbsent_dest (hnums "slg" (by simp [statKeys]))
    obtain ⟨q7, hq7⟩ := numOrAbsent_dest (hnums "stolenBases" (by simp [statKeys]))
    obtain ⟨q8, hq8⟩ := numOrAbsent_dest (hnums "caughtStealing" (by simp [statKeys]))
    obtain ⟨p1, hp1⟩ := numOrAbsent_dest (hnums "wins" (by simp [statKeys]))
    obtain ⟨p2, hp2⟩ := numOrAbsent_dest (hnums "losses" (by simp [statKeys]))
    obtain ⟨p3, hp3⟩ := numOrAbsent_dest (hnums "winPercentage" (by simp [statKeys]))
    obtain ⟨p4, hp4⟩ := numOrAbsent_dest (hnums "era" (by simp [statKeys]))
    obtain ⟨p5, hp5⟩ := numOrAbsent_dest (hnums "strikeOuts" (by simp [statKeys]))
    obtain ⟨p6, hp6⟩ := numOrAbsent_dest (hnums "baseOnBalls" (by simp [statKeys]))
    simp only [applySplit, pyGetD, pyLower, ebind_ok, hgfs, hds, hsfs]
    split
    · simp [pyGetD, ebind_ok, hq1, hq2, hq3, hq4, hq5, hq6, hq7, hq8, pyInt,
            floatOr0_num, isOkE, pure, Except.pure]
    · split
      · simp [pyGetD, ebind_ok, hp1, hp2, hp3, hp4, hp5, hp6, hq2, pyInt,
              floatOr0_num, isOkE, pure, Except.pure]
      · rfl
  all_goals simp [teamSplitOk] at hs

theorem teamStatsInit_isOk (season : Int) (now : String)
    (tif : List (String × JVal)) :
    isOkE (teamStatsInit season now (.obj tif)) = true := rfl

theorem normTeamBlock_isOk {season : Int} {now : String} {team : JVal}
    (h : teamBlockOk team = true) :
    isOkE (normTeamBlock season now team) = true := by
  cases team
  case obj fs =>
    simp only [teamBlockOk] at h
    obtain ⟨splits, hsplits, hall⟩ := optArr_dest h
    simp only [normTeamBlock, pyGetD, ebind_ok, hsplits, pyIter]
    have hti : ∃ tif, teamInfoOf splits = .ok (JVal.obj tif) := by
      cases splits with
      | nil => exact ⟨[], rfl⟩
      | cons s0 rest =>
        have h0 := hall s0 (List.mem_cons_self s0 rest)
        cases s0
        case obj s0fs =>
          simp only [teamSplitOk, Bool.and_eq_true] at h0
          obtain ⟨⟨htm, _⟩, _⟩ := h0
          obtain ⟨tif, htif⟩ := optObj_dest htm
          exact ⟨tif, by simp [teamInfoOf, pyGetD, htif]⟩
        all_goals simp [teamSplitOk] at h0
    obtain ⟨tif, htif⟩ := hti
    rw [htif, ebind_ok]
    apply bind_isOk (teamStatsInit_isOk season now tif)
    intro row0 _
    apply bind_isOk
    · exact foldE_isOk applySplit splits
        (fun b x hx => applySplit_isOk (hall x hx) b) row0
    · intro row _
      split <;> rfl
  all_goals simp [teamBlockOk] at h

theorem normTeamStats_isOk {season : Int} {now : String} {data : JVal}
    (h : teamDataOk data = true) :
    isOkE (normTeamStats season now data) = true := by
  cases data
  case obj fs =>
    simp only [teamDataOk] at h
    obtain ⟨teams, hteams, hall⟩ := optArr_dest h
    simp only [normTeamStats, pyGetD, ebind_ok, hteams, pyIter]
    apply bind_isOk
    · exact mapE_isOk _ _ (fun t ht => normTeamBlock_isOk (hall t ht))
    · intro opts _
      cases hl : opts.filterMap id <;> simp [hl, isOkE, pure, Except.pure]
  all_goals simp [teamDataOk] at h

/-- Claim C4, corrected: the games, schedule, player stats and team stats
normalizers extract nested fields via safe access only: on any input whose
present fields have the container types the code consumes (every field may
be absent), normalization succeeds, absent fields becoming defaults, and
no field access raises. The standings normalizer and the standalone games
script are the exception: they subscript team, id, name, wins, losses,
winningPercentage, gamePk, teams and status directly and raise KeyError
when one is missing. -/
theorem normalizers_default_on_missing :
    (∀ data : JVal, gamesDataOk data = true → isOkE (normGames data) = true) ∧
    (∀ data : JVal, gamesDataOk data = true → isOkE (normSchedule data) = true) ∧
    (∀ (year : Int) (data : JVal), playerDataOk data = true →
      isOkE (normPlayerStats year data) = true) ∧
    (∀ (season : Int) (now : String) (data : JVal), teamDataOk data = true →
      isOkE (normTeamStats season now data) = true) :=
  ⟨fun _ h => normGames_isOk h, fun _ h => normSchedule_isOk h,
   fun _ _ h => normPlayerStats_isOk h, fun _ _ _ h => normTeamStats_isOk h⟩

/-- Claim C4 witness: the four safe pipelines applied to concrete inputs
with missing fields (an empty game object, a split with no team, a stat
group with an empty stat object) all succeed. -/
theorem normalizers_default_on_missing_w :
    isOkE (normGames emptyGameData) = true ∧
    isOkE (normSchedule emptyGameData) = true ∧
    isOkE (normPlayerStats 2025 playerNoTeamData) = true ∧
    isOkE (normTeamStats 2025 "now" teamSimpleData) = true :=
  ⟨normalizers_default_on_missing.1 emptyGameData rfl,
   normalizers_default_on_missing.2.1 emptyGameData rfl,
   normalizers_default_on_missing.2.2.1 2025 playerNoTeamData rfl,
   normalizers_default_on_missing.2.2.2 2025 "now" teamSimpleData rfl⟩

end MLB
